import Mathlib

/-!
Shallow embedding of the external-nfsexporter control plane (Go) in Lean 4,
with theorems settling the frozen claims about its specification.

Each definition is translated from the corresponding Go function in the
repository; strings model Go strings at the character level, Go pointers
become `Option`, Go maps become association lists, and machine integers
become `Int` (no arithmetic here overflows in the source's domains).
-/

namespace NfsExporter

/-! ## Constants from pkg/utils/util.go -/

def VolumeNfsExportContentFinalizer : String :=
  "nfsexport.storage.kubernetes.io/volumenfsexportcontent-bound-protection"

def IsDefaultNfsExportClassAnnotation : String :=
  "nfsexport.storage.kubernetes.io/is-default-class"

def AnnVolumeNfsExportBeingDeleted : String :=
  "nfsexport.storage.kubernetes.io/volumenfsexport-being-deleted"

def AnnVolumeNfsExportBeingCreated : String :=
  "nfsexport.storage.kubernetes.io/volumenfsexport-being-created"

/-- Go map lookup `m[k]` on a `map[string]string`, returning the zero value
`""` when the key is absent. -/
def goMapGet (m : List (String × String)) (k : String) : String :=
  (((m.find? (fun kv => kv.1 = k))).map (fun kv => kv.2)).getD ""

/-- Go `_, found := m[k]`; `metav1.HasAnnotation` checks key presence. -/
def goMapHas (m : List (String × String)) (k : String) : Bool :=
  (m.find? (fun kv => kv.1 = k)).isSome

/-! ## C1: Driver Adapter CreateNfsExport (pkg/nfsexporter/nfsexporter.go)

In this repository the body of `CreateNfsExport` has its CSI RPC code
commented out: the function returns `"", "", time.Time{}, 0, true, nil`
unconditionally.  We embed the driver as a function from the request to the
reply the CSI driver *would* give, so that (in)dependence of the result on
the driver can be stated. -/

/-- Reply a CSI driver would give to a CreateNfsExport RPC. -/
structure DriverCreateReply where
  nfsexportId : String
  sizeBytes : Int
  creationTimeNs : Int
  readyToUse : Bool
  deriving DecidableEq, Repr

/-- Result tuple of the adapter's CreateNfsExport
`(driverName, nfsexportId, timestamp, size, readyToUse, err)`;
`timestampNs` models `time.Time` as nanoseconds (`time.Time{}` = 0) and
`err : Option String` the Go error. -/
structure CreateNfsExportResult where
  driverName : String
  nfsexportId : String
  timestampNs : Int
  size : Int
  readyToUse : Bool
  err : Option String
  deriving DecidableEq, Repr

/-- Embedding of `(*nfsexport).CreateNfsExport`: the RPC issuing code is
commented out in the source; the body is `return "", "", time.Time{}, 0, true, nil`,
independent of the driver and of every argument. -/
def CreateNfsExport (driver : String → String → DriverCreateReply)
    (nfsexportName volumeHandle : String)
    (parameters secrets : List (String × String)) : CreateNfsExportResult :=
  { driverName := ""
    nfsexportId := ""
    timestampNs := 0
    size := 0
    readyToUse := true
    err := none }

/-! ## C2: deterministic dynamic content name (pkg/utils/util.go and
pkg/common-controller/nfsexport_controller.go) -/

/-- Embedding of `utils.GetDynamicNfsExportContentNameForNfsExport`:
`return "snapcontent-" + string(nfsexport.UID)`. -/
def GetDynamicNfsExportContentNameForNfsExport (uid : String) : String :=
  "snapcontent-" ++ uid

/-- Content name used by `getCreateNfsExportInput` when the common
controller creates a CONTENT for a dynamically provisioned NFSEXPORT
(nfsexport_controller.go line 762). -/
def createContentName (uid : String) : String :=
  GetDynamicNfsExportContentNameForNfsExport uid

/-- Content name used by `getDynamicallyProvisionedContentFromStore` to look
a dynamically provisioned CONTENT up (nfsexport_controller.go line 584). -/
def dynamicLookupContentName (uid : String) : String :=
  GetDynamicNfsExportContentNameForNfsExport uid

/-- Content name computed by the deletion path
`processNfsExportWithDeletionTimestamp` (nfsexport_controller.go lines
257-268): take `status.boundContentName` if set, else for a dynamic
NFSEXPORT fall back to the deterministic name. -/
def deletionPathContentName (statusBoundContentName : Option String)
    (pvcSourceName : Option String) (uid : String) : String :=
  let contentName := statusBoundContentName.getD ""
  if contentName = "" ∧ pvcSourceName ≠ none then
    GetDynamicNfsExportContentNameForNfsExport uid
  else contentName

/-! ## C3: final-error classification (pkg/sidecar-controller/nfsexport_controller.go) -/

/-- gRPC status codes. -/
inductive GrpcCode where
  | ok | canceled | unknown | invalidArgument | deadlineExceeded | notFound
  | alreadyExists | permissionDenied | resourceExhausted | failedPrecondition
  | aborted | outOfRange | unimplemented | internal | unavailable | dataLoss
  | unauthenticated
  deriving DecidableEq, Repr, Fintype

/-- An error value as seen by `status.FromError`: `some c` when the error
carries a gRPC status with code `c`, `none` when it does not. -/
def GoErr : Type := Option GrpcCode

/-- Embedding of `isCSIFinalError`: non-gRPC errors are non-final; a gRPC
status is non-final exactly for the five listed codes. -/
def isCSIFinalError (err : GoErr) : Bool :=
  match err with
  | none => false
  | some c =>
    match c with
    | .canceled | .deadlineExceeded | .unavailable | .resourceExhausted | .aborted => false
    | _ => true

/-- The five non-final codes named by the spec. -/
def nonFinalCodes : List GrpcCode :=
  [.canceled, .deadlineExceeded, .unavailable, .resourceExhausted, .aborted]

/-! ## CONTENT objects (client/apis VolumeNfsExportContent, flattened) -/

/-- `VolumeNfsExportContentStatus`: all fields are pointers in Go. -/
structure ContentStatus where
  nfsExportHandle : Option String
  readyToUse : Option Bool
  creationTime : Option Int
  restoreSize : Option Int
  error : Option String
  deriving DecidableEq, Repr

/-- A `VolumeNfsExportContent` with the fields the claims touch:
`metadata.{deletionTimestamp, annotations, finalizers}`,
`spec.source.{volumeHandle, nfsExportHandle}` (pointers, exactly-one-of),
`spec.volumeNfsExportRef.uid`, `spec.sourceVolumeMode` and `status`. -/
structure ContentObj where
  name : String
  deletionTimestamp : Option Int
  annotations : List (String × String)
  finalizers : List String
  sourceVolumeHandle : Option String
  sourceNfsExportHandle : Option String
  volumeNfsExportRefUID : String
  sourceVolumeMode : Option String
  status : Option ContentStatus
  deriving DecidableEq, Repr

/-! ## C4: sidecar deletion predicate
(pkg/sidecar-controller/nfsexport_controller.go, `shouldDelete`) -/

/-- Embedding of `shouldDelete`, keeping the source's check order:
no deletionTimestamp → false; pre-provisioned and unbound → true;
being-created annotation → false; being-deleted annotation → true;
otherwise false. -/
def shouldDelete (content : ContentObj) : Bool :=
  if content.deletionTimestamp = none then false
  else if content.sourceNfsExportHandle ≠ none ∧ content.volumeNfsExportRefUID = "" then true
  else if goMapHas content.annotations AnnVolumeNfsExportBeingCreated then false
  else if goMapHas content.annotations AnnVolumeNfsExportBeingDeleted then true
  else false

/-- A dynamically provisioned CONTENT being deleted while both the
being-created and being-deleted annotations are present. -/
def contentBothAnnotations : ContentObj :=
  { name := "c1"
    deletionTimestamp := some 1
    annotations := [(AnnVolumeNfsExportBeingCreated, "yes"),
                    (AnnVolumeNfsExportBeingDeleted, "yes")]
    finalizers := [VolumeNfsExportContentFinalizer]
    sourceVolumeHandle := some "v1"
    sourceNfsExportHandle := none
    volumeNfsExportRefUID := "uid1"
    sourceVolumeMode := none
    status := none }

/-! ## C5: DeleteCSI status clearing
(pkg/sidecar-controller/nfsexport_controller.go, `deleteCSINfsExportOperation`
and `clearVolumeContentStatus`) -/

/-- Embedding of `clearVolumeContentStatus`: when a status exists, null the
four fields `nfsExportHandle`, `readyToUse`, `creationTime`, `restoreSize`;
everything else (including `status.error`, annotations, finalizers, spec) is
untouched. -/
def clearVolumeContentStatus (content : ContentObj) : ContentObj :=
  match content.status with
  | none => content
  | some st =>
    { content with
      status := some { st with nfsExportHandle := none, readyToUse := none,
                               creationTime := none, restoreSize := none } }

/-- Embedding of `deleteCSINfsExportOperation`: resolve credentials, call the
handler's DeleteNfsExport, and on success clear the content status;
`credErr`/`deleteErr` model the two fallible calls, `none` meaning the Go
error result (the content is untouched on error).  No finalizer is removed
on this path. -/
def deleteCSINfsExportOperation (credErr deleteErr : Option String)
    (content : ContentObj) : Option ContentObj :=
  match credErr with
  | some _ => none
  | none =>
    match deleteErr with
    | some _ => none
    | none => some (clearVolumeContentStatus content)

/-! ## C6: export-name derivation (csi_handler `makeNfsExportName`) -/

/-- Result of a Go function returning `(string, error)` whose body may also
panic on an out-of-range slice. -/
inductive NameResult where
  | ok (s : String)
  | err (msg : String)
  | panicked
  deriving DecidableEq, Repr

/-- `strings.Replace(uid, "-", "", -1)`: remove every dash. -/
def stripDashes (s : String) : String :=
  ⟨s.data.filter (fun ch => ch ≠ '-')⟩

/-- Embedding of `makeNfsExportName`: empty UID → error; uuidLength `-1` →
`pfx-uid`; otherwise the Go slice `stripped[0:n]`, which yields the first
`n` characters when `0 ≤ n ≤ len(stripped)` and panics otherwise. -/
def makeNfsExportName (pfx uid : String) (nfsexportNameUUIDLength : Int) : NameResult :=
  if uid.length = 0 then .err "Corrupted nfsexport object, it is missing UID"
  else if nfsexportNameUUIDLength = -1 then .ok (pfx ++ "-" ++ uid)
  else
    let stripped := stripDashes uid
    if 0 ≤ nfsexportNameUUIDLength ∧ nfsexportNameUUIDLength ≤ (stripped.length : Int) then
      .ok (pfx ++ "-" ++ stripped.take nfsexportNameUUIDLength.toNat)
    else .panicked

/-! ## C7: admission of CLASS default-class uniqueness
(pkg/validation-webhook/nfsexport.go, `decideNfsExportClassV1`) -/

/-- A `VolumeNfsExportClass` with the fields the webhook reads. -/
structure SnapClass where
  name : String
  driver : String
  annotations : List (String × String)
  deriving DecidableEq, Repr

/-- An `AdmissionResponse` `(allowed, message)`. -/
structure AdmissionResponse where
  allowed : Bool
  message : String
  deriving DecidableEq, Repr

/-- Embedding of `decideNfsExportClassV1` with the lister's class list made
explicit (the lister error path is out of the model).  On a CREATE the Go
code decodes `oldSnapClass` from an empty payload, i.e. the zero object
with no annotations and empty driver. -/
def decideNfsExportClassV1 (snapClass oldSnapClass : SnapClass)
    (classes : List SnapClass) : AdmissionResponse :=
  if goMapGet snapClass.annotations IsDefaultNfsExportClassAnnotation ≠ "true" then
    { allowed := true, message := "" }
  else if goMapGet oldSnapClass.annotations IsDefaultNfsExportClassAnnotation = "true" ∧
          oldSnapClass.driver = snapClass.driver then
    { allowed := true, message := "" }
  else
    match classes.find? (fun c =>
        goMapGet c.annotations IsDefaultNfsExportClassAnnotation = "true" ∧
        c.driver = snapClass.driver) with
    | some c =>
      { allowed := false
        message := "default nfsexport class: " ++ c.name ++ " already exits for driver: "
                     ++ snapClass.driver }
    | none => { allowed := true, message := "" }

/-- The zero-valued old CLASS a CREATE request decodes. -/
def emptySnapClass : SnapClass :=
  { name := "", driver := "", annotations := [] }

/-! ## C8: controller cache update (pkg/utils/util.go, `StoreObjectUpdate`) -/

/-- An object in the informer cache: key plus metadata resource version
(a string parsed with `strconv.ParseInt`). -/
structure StoredObj where
  name : String
  resourceVersion : String
  deriving DecidableEq, Repr

/-- Base-10 digit accumulation; `none` on the first non-digit. -/
def parseNatDigits (l : List Char) : Option Nat :=
  match l with
  | [] => none
  | _ =>
    l.foldl (fun acc ch =>
      acc.bind (fun n => if ch.isDigit then some (n * 10 + (ch.toNat - 48)) else none))
      (some 0)

/-- `strconv.ParseInt(rv, 10, 64)`: optional sign, then decimal digits
(resource versions in scope never overflow 64 bits, so the overflow error
path is not modeled). -/
def parseResourceVersion (s : String) : Option Int :=
  match s.data with
  | [] => none
  | '+' :: rest => (parseNatDigits rest).map (fun n => (n : Int))
  | '-' :: rest => (parseNatDigits rest).map (fun n => -(n : Int))
  | l => (parseNatDigits l).map (fun n => (n : Int))

/-- `cache.Store.Update`: replace the entry with the same key. -/
def cacheStoreUpdate (store : List StoredObj) (obj : StoredObj) : List StoredObj :=
  store.map (fun o => if o.name = obj.name then obj else o)

/-- Embedding of `StoreObjectUpdate`: a new key is added; for an existing
key both resource versions are parsed (a parse failure is the Go error
return), a strictly older incoming version is ignored (`false`, cache
unchanged) and any other version — equal included — replaces the cached
entry (`true`). -/
def StoreObjectUpdate (store : List StoredObj) (obj : StoredObj) :
    Except String (Bool × List StoredObj) :=
  match store.find? (fun o => o.name = obj.name) with
  | none => .ok (true, obj :: store)
  | some oldObj =>
    match parseResourceVersion obj.resourceVersion with
    | none => .error ("error parsing ResourceVersion " ++ obj.resourceVersion)
    | some objResourceVersion =>
      match parseResourceVersion oldObj.resourceVersion with
      | none => .error ("error parsing old ResourceVersion " ++ oldObj.resourceVersion)
      | some oldObjResourceVersion =>
        if oldObjResourceVersion > objResourceVersion then
          .ok (false, store)
        else
          .ok (true, cacheStoreUpdate store obj)

/-! ## C10: CONTENT immutable-field check
(pkg/validation-webhook/nfsexport.go, `checkNfsExportContentImmutableFieldsV1`) -/

/-- Result of the Go check: `ok` (nil error), an error message, or a panic
raised while the result was being built. -/
inductive CheckResult where
  | ok
  | err (msg : String)
  | panicked
  deriving DecidableEq, Repr

/-- `strPtrDereference`. -/
def strPtrDereference (s : Option String) : String :=
  s.getD "<nil string pointer>"

/-- Embedding of `checkNfsExportContentImmutableFieldsV1`.  The two handle
comparisons use `reflect.DeepEqual` on string pointers (`Option` equality).
Under `preventVolumeModeConversion`, a differing `sourceVolumeMode` formats
`*old` and `*new` into the message: when either pointer is nil this is the
nil dereference, i.e. a panic. -/
def checkNfsExportContentImmutableFieldsV1 (preventVolumeModeConversion : Bool)
    (snapcontent oldSnapcontent : Option ContentObj) : CheckResult :=
  match snapcontent with
  | none => .err "VolumeNfsExportContent is nil"
  | some c =>
    match oldSnapcontent with
    | none => .err "old VolumeNfsExportContent is nil"
    | some old =>
      if c.sourceVolumeHandle ≠ old.sourceVolumeHandle then
        .err ("Spec.Source.VolumeHandle is immutable but was changed from "
          ++ strPtrDereference old.sourceVolumeHandle ++ " to "
          ++ strPtrDereference c.sourceVolumeHandle)
      else if c.sourceNfsExportHandle ≠ old.sourceNfsExportHandle then
        .err ("Spec.Source.NfsExportHandle is immutable but was changed from "
          ++ strPtrDereference old.sourceNfsExportHandle ++ " to "
          ++ strPtrDereference c.sourceNfsExportHandle)
      else if preventVolumeModeConversion then
        if c.sourceVolumeMode ≠ old.sourceVolumeMode then
          match old.sourceVolumeMode, c.sourceVolumeMode with
          | some o, some n =>
            .err ("Spec.SourceVolumeMode is immutable but was changed from "
              ++ o ++ " to " ++ n)
          | _, _ => .panicked
        else .ok
      else .ok

/-! ## C9: operation metrics (pkg/utils/metrics.go) -/

def CreateNfsExportOperationName : String := "CreateNfsExport"

def CreateNfsExportAndReadyOperationName : String := "CreateNfsExportAndReady"

def DeleteNfsExportOperationName : String := "DeleteNfsExport"

/-- `(operation, resourceId)` key of the metrics cache. -/
structure OperationKey where
  name : String
  resourceID : String
  deriving DecidableEq, Repr

/-- `NewOperationKey`. -/
def NewOperationKey (name resourceID : String) : OperationKey :=
  { name := name, resourceID := resourceID }

/-- Cached operation metadata (`startTime` in nanoseconds). -/
structure OperationValue where
  driver : String
  nfsExportType : String
  startTime : Int
  deriving DecidableEq, Repr

/-- One `Observe` on the latency histogram, identified by its label values
and observed duration. -/
structure Observation where
  driver : String
  operationName : String
  nfsExportType : String
  status : String
  duration : Int
  deriving DecidableEq, Repr

/-- The metrics manager's mutable state: the keyed cache plus the multiset of
histogram observations (as a list, in emission order). -/
structure MetricsState where
  cache : List (OperationKey × OperationValue)
  observations : List Observation
  deriving DecidableEq, Repr

/-- Go map read `v, exists := cache[k]`. -/
def cacheLookup (cache : List (OperationKey × OperationValue)) (k : OperationKey) :
    Option OperationValue :=
  (cache.find? (fun kv => kv.1 = k)).map (fun kv => kv.2)

/-- Go `delete(cache, k)`. -/
def cacheDelete (cache : List (OperationKey × OperationValue)) (k : OperationKey) :
    List (OperationKey × OperationValue) :=
  cache.filter (fun kv => kv.1 ≠ k)

/-- Embedding of `recordCancelMetricLocked`: observe
`(val.Driver, key.Name, val.NfsExportType, "cancel")` with the given
duration and drop the entry. -/
def recordCancelMetricLocked (st : MetricsState) (val : OperationValue)
    (key : OperationKey) (duration : Int) : MetricsState :=
  { cache := cacheDelete st.cache key
    observations := st.observations ++
      [{ driver := val.driver, operationName := key.name,
         nfsExportType := val.nfsExportType, status := "cancel",
         duration := duration }] }

/-- Embedding of `RecordMetrics` with the clock passed explicitly (`now`,
nanoseconds; `duration = now - startTime`): a missing key is a no-op;
otherwise the operation is observed, and for a DeleteNfsExport key any
pending CreateNfsExport / CreateNfsExportAndReady entries of the same
resourceId are cancel-observed with the same duration; finally the key is
dropped. -/
def RecordMetrics (st : MetricsState) (opKey : OperationKey)
    (opStatus : Option String) (driverName : String) (now : Int) : MetricsState :=
  match cacheLookup st.cache opKey with
  | none => st
  | some opVal =>
    let operationDuration := now - opVal.startTime
    let st1 : MetricsState :=
      { st with observations := st.observations ++
          [{ driver := if driverName = "" ∨ driverName = "unknown" then opVal.driver
                       else driverName
             operationName := opKey.name
             nfsExportType := opVal.nfsExportType
             status := opStatus.getD "unknown"
             duration := operationDuration }] }
    let st2 : MetricsState :=
      if opKey.name = DeleteNfsExportOperationName then
        let createKey := NewOperationKey CreateNfsExportOperationName opKey.resourceID
        let st2a : MetricsState :=
          match cacheLookup st1.cache createKey with
          | some obj => recordCancelMetricLocked st1 obj createKey operationDuration
          | none => st1
        let createAndReadyKey :=
          NewOperationKey CreateNfsExportAndReadyOperationName opKey.resourceID
        match cacheLookup st2a.cache createAndReadyKey with
        | some obj => recordCancelMetricLocked st2a obj createAndReadyKey operationDuration
        | none => st2a
      else st1
    { st2 with cache := cacheDelete st2.cache opKey }

end NfsExporter

namespace NfsExporter

/-- C3: the classifier returns true iff the error carries a gRPC status whose
code is outside the non-final set; errors without a gRPC status are
non-final. -/
theorem C3_isCSIFinalError_spec (err : GoErr) :
    isCSIFinalError err = true ↔
      ∃ c : GrpcCode, err = some c ∧ c ∉ nonFinalCodes := by
  cases err with
  | none => simp [isCSIFinalError]
  | some c => cases c <;> decide

/-- A concrete driver whose reply to every CreateNfsExport RPC is
`{exportId="e1", readyToUse=true, size=1000}`. -/
def exampleDriver : String → String → DriverCreateReply :=
  fun _ _ => { nfsexportId := "e1", sizeBytes := 1000, creationTimeNs := 7, readyToUse := true }

/-- C1 counterexample: for a driver replying `{exportId="e1", readyToUse=true,
size=1000}`, the adapter returns nfsexportId `""` and size `0`, not the
driver's values: the result is independent of the driver's reply. -/
theorem C1_counterexample :
    ¬ ((CreateNfsExport exampleDriver "e-uid1" "v1" [] []).nfsexportId
          = (exampleDriver "e-uid1" "v1").nfsexportId ∧
       (CreateNfsExport exampleDriver "e-uid1" "v1" [] []).size
          = (exampleDriver "e-uid1" "v1").sizeBytes) := by
  intro h
  simp [CreateNfsExport, exampleDriver] at h

/-- C1 amended: `CreateNfsExport` issues no RPC; for every driver and every
argument it returns the constant tuple
`(driverName="", nfsexportId="", timestamp=zero, size=0, readyToUse=true, err=nil)`. -/
theorem C1_createNfsExport_constant
    (driver : String → String → DriverCreateReply)
    (nfsexportName volumeHandle : String)
    (parameters secrets : List (String × String)) :
    CreateNfsExport driver nfsexportName volumeHandle parameters secrets
      = { driverName := "", nfsexportId := "", timestampNs := 0,
          size := 0, readyToUse := true, err := none } := rfl

/-- C2 counterexample: for UID `"u1"` the derived content name is
`"snapcontent-u1"`, not `"content-u1"` as the claim states. -/
theorem C2_counterexample :
    GetDynamicNfsExportContentNameForNfsExport "u1" ≠ "content-" ++ "u1" := by
  decide

/-- C2 amended: the deterministic content name is `"snapcontent-" ++ uid`,
and the CONTENT-creation path, the dynamic lookup path and the
deletion-recovery path (when no bound name is recorded on a dynamic
NFSEXPORT) all use exactly this name. -/
theorem C2_content_name (uid : String) (pvcName : String) :
    createContentName uid = "snapcontent-" ++ uid ∧
    dynamicLookupContentName uid = createContentName uid ∧
    deletionPathContentName none (some pvcName) uid = createContentName uid := by
  exact ⟨rfl, rfl, rfl⟩

/-- C4 counterexample: a dynamically provisioned CONTENT with a deletion
timestamp carrying both the being-created and the being-deleted annotation.
The claim's biconditional predicts `shouldDelete = true` (clause (b) holds),
but the code returns false because the being-created check precedes the
being-deleted check. -/
theorem C4_counterexample :
    ¬ ((shouldDelete contentBothAnnotations = true ↔
          (contentBothAnnotations.deletionTimestamp ≠ none ∧
           ((contentBothAnnotations.sourceNfsExportHandle ≠ none ∧
             contentBothAnnotations.volumeNfsExportRefUID = "") ∨
            goMapHas contentBothAnnotations.annotations AnnVolumeNfsExportBeingDeleted = true))) ∧
       (goMapHas contentBothAnnotations.annotations AnnVolumeNfsExportBeingCreated = true →
          shouldDelete contentBothAnnotations = false)) := by
  decide

/-- C4 amended: `shouldDelete` holds iff the deletion timestamp is set and
either (a) the CONTENT is pre-provisioned and unbound, or (b) it carries the
being-deleted annotation and not the being-created annotation; the
being-created annotation defers deletion only in case (b), not in case (a). -/
theorem C4_shouldDelete_spec (content : ContentObj) :
    shouldDelete content = true ↔
      (content.deletionTimestamp ≠ none ∧
       ((content.sourceNfsExportHandle ≠ none ∧ content.volumeNfsExportRefUID = "") ∨
        (goMapHas content.annotations AnnVolumeNfsExportBeingDeleted = true ∧
         goMapHas content.annotations AnnVolumeNfsExportBeingCreated = false))) := by
  unfold shouldDelete
  split_ifs with h1 h2 h3 h4 <;> simp_all

/-- C5: when credentials resolve and the driver delete succeeds, DeleteCSI
produces the CONTENT with exactly the four status fields `nfsExportHandle`,
`readyToUse`, `creationTime`, `restoreSize` nulled; `status.error`, the
metadata (annotations, finalizer list, deletion timestamp), and the spec
fields are unchanged, and the bound-content finalizer is not removed in
this pass. -/
theorem C5_deleteCSI_clears_exactly_four_fields
    (content : ContentObj) (st : ContentStatus) (h : content.status = some st) :
    deleteCSINfsExportOperation none none content =
      some { content with
             status := some { nfsExportHandle := none, readyToUse := none,
                              creationTime := none, restoreSize := none,
                              error := st.error } } ∧
    (clearVolumeContentStatus content).finalizers = content.finalizers ∧
    (clearVolumeContentStatus content).annotations = content.annotations := by
  refine ⟨?_, ?_, ?_⟩ <;> simp [deleteCSINfsExportOperation, clearVolumeContentStatus, h]

/-- A ready CONTENT with a recorded status error and the bound finalizer. -/
def contentReadyExample : ContentObj :=
  { name := "c5"
    deletionTimestamp := some 3
    annotations := [(AnnVolumeNfsExportBeingDeleted, "yes")]
    finalizers := [VolumeNfsExportContentFinalizer]
    sourceVolumeHandle := some "v1"
    sourceNfsExportHandle := none
    volumeNfsExportRefUID := "uid5"
    sourceVolumeMode := none
    status := some { nfsExportHandle := some "e1", readyToUse := some true,
                     creationTime := some 11, restoreSize := some 1000,
                     error := some "old error" } }

/-- C5 witness: the theorem applied to a concrete ready CONTENT. -/
theorem C5_witness :
    deleteCSINfsExportOperation none none contentReadyExample =
      some { contentReadyExample with
             status := some { nfsExportHandle := none, readyToUse := none,
                              creationTime := none, restoreSize := none,
                              error := some "old error" } } ∧
    (clearVolumeContentStatus contentReadyExample).finalizers = contentReadyExample.finalizers ∧
    (clearVolumeContentStatus contentReadyExample).annotations = contentReadyExample.annotations :=
  C5_deleteCSI_clears_exactly_four_fields contentReadyExample
    { nfsExportHandle := some "e1", readyToUse := some true,
      creationTime := some 11, restoreSize := some 1000,
      error := some "old error" } rfl

/-- C6 counterexample: with prefix `"e"`, UID `"u1"` and configured
uuidLength `0` (a non-positive length), the code returns `"e-"`, not
`"e-u1"` as the claim's no-positive-length clause predicts. -/
theorem C6_counterexample :
    makeNfsExportName "e" "u1" 0 = NameResult.ok "e-" ∧
    NameResult.ok "e-" ≠ NameResult.ok ("e" ++ "-" ++ "u1") := by
  constructor <;> decide

/-- C6 amended: for a non-empty UID the derived name is `pfx-uid` exactly
when uuidLength is `-1` (the unconfigured default); when
`0 ≤ uuidLength ≤ length(uid with dashes stripped)` it is `pfx-` followed by
the first uuidLength characters of the dash-stripped UID; any other
uuidLength panics.  The function is pure, hence stable across restarts and
retries. -/
theorem C6_makeNfsExportName_spec (pfx uid : String) (n : Int)
    (h : 0 < uid.length) :
    (n = -1 → makeNfsExportName pfx uid n = .ok (pfx ++ "-" ++ uid)) ∧
    (0 ≤ n → n ≤ ((stripDashes uid).length : Int) →
      makeNfsExportName pfx uid n = .ok (pfx ++ "-" ++ (stripDashes uid).take n.toNat)) ∧
    (n ≠ -1 → ¬(0 ≤ n ∧ n ≤ ((stripDashes uid).length : Int)) →
      makeNfsExportName pfx uid n = .panicked) := by
  unfold makeNfsExportName
  refine ⟨?_, ?_, ?_⟩
  · intro hn
    simp [hn, Nat.pos_iff_ne_zero.mp h]
  · intro h0 hlen
    have hne : ¬ uid.length = 0 := Nat.pos_iff_ne_zero.mp h
    by_cases hn : n = -1
    · omega
    · simp [hne, hn, h0, hlen]
  · intro hn hrange
    have hne : ¬ uid.length = 0 := Nat.pos_iff_ne_zero.mp h
    simp [hne, hn, hrange]

/-- C6 witness: prefix `"e"`, UID `"ab-cd"`, uuidLength `3` gives `"e-abc"`;
uuidLength `-1` gives `"e-ab-cd"`. -/
theorem C6_witness :
    makeNfsExportName "e" "ab-cd" 3 =
      NameResult.ok ("e" ++ "-" ++ (stripDashes "ab-cd").take (Int.toNat 3)) :=
  (C6_makeNfsExportName_spec "e" "ab-cd" 3 (by decide)).2.1 (by decide) (by decide)

/-- C7: the CLASS admission decision denies exactly the requests whose new
object carries `is-default-class=true`, that are not a same-driver update of
an object already carrying it, and for which some listed CLASS with the same
driver already carries the annotation; in particular a request not setting
the annotation is always allowed.  A CREATE is the instance where the old
object is the zero-valued `emptySnapClass`. -/
theorem C7_decideNfsExportClassV1_spec (snapClass oldSnapClass : SnapClass)
    (classes : List SnapClass) :
    (decideNfsExportClassV1 snapClass oldSnapClass classes).allowed = false ↔
      (goMapGet snapClass.annotations IsDefaultNfsExportClassAnnotation = "true" ∧
       ¬(goMapGet oldSnapClass.annotations IsDefaultNfsExportClassAnnotation = "true" ∧
         oldSnapClass.driver = snapClass.driver) ∧
       ∃ c ∈ classes,
         goMapGet c.annotations IsDefaultNfsExportClassAnnotation = "true" ∧
         c.driver = snapClass.driver) := by
  unfold decideNfsExportClassV1
  split_ifs with h1 h2
  · simp_all
  · simp_all
  · push_neg at h1
    cases hfind : classes.find? (fun c =>
        goMapGet c.annotations IsDefaultNfsExportClassAnnotation = "true" ∧
        c.driver = snapClass.driver) with
    | none =>
      have hnone := List.find?_eq_none.mp hfind
      simp only [hfind]
      constructor
      · intro hcon; cases hcon
      · rintro ⟨-, -, c, hc, hprop⟩
        exact absurd (by simpa using hprop) (by simpa using hnone c hc)
    | some c =>
      have hc : c ∈ classes := List.mem_of_find?_eq_some hfind
      have hprop := List.find?_some hfind
      exact ⟨fun _ => ⟨h1, h2, c, hc, by simpa using hprop⟩, fun _ => rfl⟩

/-- Helper for C8: replacing the entry for `obj.name` makes `find?` on that
key return `obj`, provided the key was present. -/
theorem cacheStoreUpdate_find (store : List StoredObj) (obj oldObj : StoredObj)
    (h : store.find? (fun o => o.name = obj.name) = some oldObj) :
    (cacheStoreUpdate store obj).find? (fun o => o.name = obj.name) = some obj := by
  induction store with
  | nil => simp at h
  | cons hd tl ih =>
    by_cases hn : hd.name = obj.name
    · simp [cacheStoreUpdate, hn]
    · have h' : tl.find? (fun o => o.name = obj.name) = some oldObj := by
        simpa [List.find?_cons, hn] using h
      simpa [cacheStoreUpdate, hn] using ih h'

/-- C8: for an object whose key is cached and whose resource versions (new
and cached) parse, the update is rejected with the cache unchanged exactly
when the incoming version is strictly smaller than the cached one; an equal
or newer version is accepted and stored, and the entry retrievable for the
key afterwards always carries a version ≥ the old cached one. -/
theorem C8_storeObjectUpdate_spec (store : List StoredObj) (obj oldObj : StoredObj)
    (nNew nOld : Int)
    (hfind : store.find? (fun o => o.name = obj.name) = some oldObj)
    (hNew : parseResourceVersion obj.resourceVersion = some nNew)
    (hOld : parseResourceVersion oldObj.resourceVersion = some nOld) :
    (StoreObjectUpdate store obj = .ok (false, store) ↔ nNew < nOld) ∧
    (nOld ≤ nNew → StoreObjectUpdate store obj = .ok (true, cacheStoreUpdate store obj)) ∧
    (∀ b store', StoreObjectUpdate store obj = .ok (b, store') →
      ∃ o', store'.find? (fun o => o.name = obj.name) = some o' ∧
        ∃ n, parseResourceVersion o'.resourceVersion = some n ∧ nOld ≤ n) := by
  unfold StoreObjectUpdate
  simp only [hfind, hNew, hOld]
  by_cases hlt : nOld > nNew
  · refine ⟨by simp [hlt], fun hle => absurd hlt (not_lt.mpr hle), ?_⟩
    intro b store' hres
    simp only [if_pos hlt, Except.ok.injEq, Prod.mk.injEq] at hres
    exact ⟨oldObj, by rw [← hres.2]; exact hfind, nOld, hOld, le_refl nOld⟩
  · have hle : nOld ≤ nNew := not_lt.mp hlt
    refine ⟨by simp [hlt, hle], fun _ => by simp [hlt], ?_⟩
    intro b store' hres
    simp only [if_neg hlt, Except.ok.injEq, Prod.mk.injEq] at hres
    exact ⟨obj, by rw [← hres.2]; exact cacheStoreUpdate_find store obj oldObj hfind,
      nNew, hNew, hle⟩

/-- C8 witness: offering an object with resource version equal to the cached
one ("5" = "5") is accepted and stored. -/
theorem C8_witness :
    StoreObjectUpdate [⟨"a", "5"⟩] ⟨"a", "5"⟩ =
      .ok (true, cacheStoreUpdate [⟨"a", "5"⟩] ⟨"a", "5"⟩) :=
  (C8_storeObjectUpdate_spec [⟨"a", "5"⟩] ⟨"a", "5"⟩ ⟨"a", "5"⟩ 5 5
      (by decide) (by decide) (by decide)).2.1 (le_refl 5)

/-- C10: with prevent-volume-mode-conversion enabled and the two source
handles unchanged, an update that sets `sourceVolumeMode` on one side while
the other side is nil makes the immutability check panic (the rejection
message dereferences a nil pointer); when both sides are non-nil, or both
nil, the check never panics. -/
theorem C10_sourceVolumeMode_panic (c old : ContentObj)
    (hv : c.sourceVolumeHandle = old.sourceVolumeHandle)
    (hh : c.sourceNfsExportHandle = old.sourceNfsExportHandle) :
    (((old.sourceVolumeMode = none ∧ c.sourceVolumeMode ≠ none) ∨
      (c.sourceVolumeMode = none ∧ old.sourceVolumeMode ≠ none)) →
        checkNfsExportContentImmutableFieldsV1 true (some c) (some old) = .panicked) ∧
    (((c.sourceVolumeMode ≠ none ∧ old.sourceVolumeMode ≠ none) ∨
      (c.sourceVolumeMode = none ∧ old.sourceVolumeMode = none)) →
        ∀ prevent,
          checkNfsExportContentImmutableFieldsV1 prevent (some c) (some old) ≠ .panicked) := by
  constructor
  · rintro (⟨hOldNil, hNewSet⟩ | ⟨hNewNil, hOldSet⟩)
    · cases hNew : c.sourceVolumeMode with
      | none => exact absurd hNew hNewSet
      | some m =>
        simp [checkNfsExportContentImmutableFieldsV1, hv, hh, hOldNil, hNew]
    · cases hOld : old.sourceVolumeMode with
      | none => exact absurd hOld hOldSet
      | some m =>
        simp [checkNfsExportContentImmutableFieldsV1, hv, hh, hNewNil, hOld]
  · rintro (⟨hNewSet, hOldSet⟩ | ⟨hNewNil, hOldNil⟩) prevent
    · cases hNew : c.sourceVolumeMode with
      | none => exact absurd hNew hNewSet
      | some m =>
        cases hOld : old.sourceVolumeMode with
        | none => exact absurd hOld hOldSet
        | some m' =>
          cases prevent with
          | false => simp [checkNfsExportContentImmutableFieldsV1, hv, hh]
          | true =>
            by_cases hmode : m = m'
            · subst hmode
              simp [checkNfsExportContentImmutableFieldsV1, hv, hh, hNew, hOld]
            · simp [checkNfsExportContentImmutableFieldsV1, hv, hh, hNew, hOld, hmode]
    · cases prevent with
      | false => simp [checkNfsExportContentImmutableFieldsV1, hv, hh]
      | true =>
        simp [checkNfsExportContentImmutableFieldsV1, hv, hh, hNewNil, hOldNil]

/-- A CONTENT whose source volume mode is nil. -/
def contentModeNil : ContentObj :=
  { name := "c10", deletionTimestamp := none, annotations := [], finalizers := []
    sourceVolumeHandle := some "v1", sourceNfsExportHandle := none
    volumeNfsExportRefUID := "u", sourceVolumeMode := none, status := none }

/-- The same CONTENT with the source volume mode set to `"Filesystem"`. -/
def contentModeSet : ContentObj :=
  { contentModeNil with sourceVolumeMode := some "Filesystem" }

/-- C10 witness: updating `contentModeNil` to `contentModeSet` under the
conversion-prevention flag panics the validator. -/
theorem C10_witness :
    checkNfsExportContentImmutableFieldsV1 true
      (some contentModeSet) (some contentModeNil) = CheckResult.panicked :=
  (C10_sourceVolumeMode_panic contentModeSet contentModeNil rfl rfl).1
    (Or.inl ⟨rfl, by decide⟩)

/-- Projection of `NewOperationKey`. -/
theorem NewOperationKey_name (name resourceID : String) :
    (NewOperationKey name resourceID).name = name := rfl

/-- Lookup on a cons. -/
theorem cacheLookup_cons (hd : OperationKey × OperationValue)
    (tl : List (OperationKey × OperationValue)) (k : OperationKey) :
    cacheLookup (hd :: tl) k = if hd.1 = k then some hd.2 else cacheLookup tl k := by
  by_cases h : hd.1 = k
  · rw [cacheLookup, List.find?_cons_of_pos _ (by simpa using h), if_pos h]
    rfl
  · rw [cacheLookup, List.find?_cons_of_neg _ (by simpa using h), if_neg h]
    rfl

/-- Delete on a cons. -/
theorem cacheDelete_cons (hd : OperationKey × OperationValue)
    (tl : List (OperationKey × OperationValue)) (k : OperationKey) :
    cacheDelete (hd :: tl) k =
      if hd.1 = k then cacheDelete tl k else hd :: cacheDelete tl k := by
  by_cases h : hd.1 = k <;> simp [cacheDelete, List.filter_cons, h]

/-- Deleting a key makes its lookup miss. -/
theorem cacheLookup_delete_self (cache : List (OperationKey × OperationValue))
    (k : OperationKey) : cacheLookup (cacheDelete cache k) k = none := by
  induction cache with
  | nil => rfl
  | cons hd tl ih =>
    rw [cacheDelete_cons]
    by_cases h : hd.1 = k
    · rw [if_pos h]; exact ih
    · rw [if_neg h, cacheLookup_cons, if_neg h]; exact ih

/-- Deleting one key leaves lookups of a different key unchanged. -/
theorem cacheLookup_delete_ne (cache : List (OperationKey × OperationValue))
    {k' k : OperationKey} (h : k' ≠ k) :
    cacheLookup (cacheDelete cache k') k = cacheLookup cache k := by
  induction cache with
  | nil => rfl
  | cons hd tl ih =>
    rw [cacheDelete_cons, cacheLookup_cons]
    by_cases hh : hd.1 = k'
    · have hdk : ¬ hd.1 = k := by rw [hh]; exact h
      rw [if_pos hh, if_neg hdk]; exact ih
    · rw [if_neg hh, cacheLookup_cons]
      by_cases hk : hd.1 = k
      · rw [if_pos hk, if_pos hk]
      · rw [if_neg hk, if_neg hk]; exact ih

/-- C9: recording a DeleteNfsExport key that is present in the cache
observes the delete, cancel-observes (same duration) any still-present
CreateNfsExport and CreateNfsExportAndReady entries of the same resourceId,
and removes all the involved entries from the cache. -/
theorem C9_recordMetrics_delete_cancels (st : MetricsState) (opKey : OperationKey)
    (opStatus : Option String) (driverName : String) (now : Int) (v : OperationValue)
    (hname : opKey.name = DeleteNfsExportOperationName)
    (hv : cacheLookup st.cache opKey = some v) :
    ({ driver := if driverName = "" ∨ driverName = "unknown" then v.driver else driverName
       operationName := opKey.name, nfsExportType := v.nfsExportType
       status := opStatus.getD "unknown", duration := now - v.startTime } : Observation) ∈
        (RecordMetrics st opKey opStatus driverName now).observations ∧
    (∀ cv, cacheLookup st.cache (NewOperationKey CreateNfsExportOperationName opKey.resourceID)
        = some cv →
      ({ driver := cv.driver, operationName := CreateNfsExportOperationName
         nfsExportType := cv.nfsExportType, status := "cancel"
         duration := now - v.startTime } : Observation) ∈
          (RecordMetrics st opKey opStatus driverName now).observations) ∧
    (∀ rv, cacheLookup st.cache
        (NewOperationKey CreateNfsExportAndReadyOperationName opKey.resourceID) = some rv →
      ({ driver := rv.driver, operationName := CreateNfsExportAndReadyOperationName
         nfsExportType := rv.nfsExportType, status := "cancel"
         duration := now - v.startTime } : Observation) ∈
          (RecordMetrics st opKey opStatus driverName now).observations) ∧
    cacheLookup (RecordMetrics st opKey opStatus driverName now).cache
      (NewOperationKey CreateNfsExportOperationName opKey.resourceID) = none ∧
    cacheLookup (RecordMetrics st opKey opStatus driverName now).cache
      (NewOperationKey CreateNfsExportAndReadyOperationName opKey.resourceID) = none ∧
    cacheLookup (RecordMetrics st opKey opStatus driverName now).cache opKey = none := by
  have hne1 : opKey ≠ NewOperationKey CreateNfsExportOperationName opKey.resourceID := by
    intro heq
    have h' := congrArg OperationKey.name heq
    simp only [NewOperationKey] at h'
    rw [hname] at h'
    exact absurd h' (by decide)
  have hne2 : opKey ≠ NewOperationKey CreateNfsExportAndReadyOperationName opKey.resourceID := by
    intro heq
    have h' := congrArg OperationKey.name heq
    simp only [NewOperationKey] at h'
    rw [hname] at h'
    exact absurd h' (by decide)
  have hne3 : NewOperationKey CreateNfsExportAndReadyOperationName opKey.resourceID ≠
      NewOperationKey CreateNfsExportOperationName opKey.resourceID := by
    intro heq
    have h' := congrArg OperationKey.name heq
    simp only [NewOperationKey] at h'
    exact absurd h' (by decide)
  cases hc1 : cacheLookup st.cache (NewOperationKey CreateNfsExportOperationName opKey.resourceID) with
  | none =>
    cases hc2 : cacheLookup st.cache
        (NewOperationKey CreateNfsExportAndReadyOperationName opKey.resourceID) with
    | none =>
      refine ⟨?_, ?_, ?_, ?_, ?_, ?_⟩ <;>
        simp [RecordMetrics, NewOperationKey_name, hv, hname, hc1, hc2, recordCancelMetricLocked,
          cacheLookup_delete_self, cacheLookup_delete_ne _ hne1,
          cacheLookup_delete_ne _ hne2, cacheLookup_delete_ne _ hne3,
          cacheLookup_delete_ne _ hne3.symm]
    | some rv =>
      refine ⟨?_, ?_, ?_, ?_, ?_, ?_⟩ <;>
        simp [RecordMetrics, NewOperationKey_name, hv, hname, hc1, hc2, recordCancelMetricLocked,
          cacheLookup_delete_self, cacheLookup_delete_ne _ hne1,
          cacheLookup_delete_ne _ hne2, cacheLookup_delete_ne _ hne3,
          cacheLookup_delete_ne _ hne3.symm]
  | some cv =>
    have hc2' : cacheLookup
        (cacheDelete st.cache (NewOperationKey CreateNfsExportOperationName opKey.resourceID))
        (NewOperationKey CreateNfsExportAndReadyOperationName opKey.resourceID) =
        cacheLookup st.cache
          (NewOperationKey CreateNfsExportAndReadyOperationName opKey.resourceID) :=
      cacheLookup_delete_ne _ hne3.symm
    cases hc2 : cacheLookup st.cache
        (NewOperationKey CreateNfsExportAndReadyOperationName opKey.resourceID) with
    | none =>
      refine ⟨?_, ?_, ?_, ?_, ?_, ?_⟩ <;>
        simp [RecordMetrics, NewOperationKey_name, hv, hname, hc1, Eq.trans hc2' hc2, recordCancelMetricLocked,
          cacheLookup_delete_self, cacheLookup_delete_ne _ hne1,
          cacheLookup_delete_ne _ hne2, cacheLookup_delete_ne _ hne3,
          cacheLookup_delete_ne _ hne3.symm]
    | some rv =>
      refine ⟨?_, ?_, ?_, ?_, ?_, ?_⟩ <;>
        simp [RecordMetrics, NewOperationKey_name, hv, hname, hc1, Eq.trans hc2' hc2, recordCancelMetricLocked,
          cacheLookup_delete_self, cacheLookup_delete_ne _ hne1,
          cacheLookup_delete_ne _ hne2, cacheLookup_delete_ne _ hne3,
          cacheLookup_delete_ne _ hne3.symm]

/-- A metrics cache holding a delete, a create and a create-and-ready entry
for resource `"u9"`. -/
def metricsExample : MetricsState :=
  { cache := [(NewOperationKey DeleteNfsExportOperationName "u9",
                { driver := "d", nfsExportType := "dynamic", startTime := 10 }),
              (NewOperationKey CreateNfsExportOperationName "u9",
                { driver := "d", nfsExportType := "dynamic", startTime := 3 }),
              (NewOperationKey CreateNfsExportAndReadyOperationName "u9",
                { driver := "d", nfsExportType := "dynamic", startTime := 4 })]
    observations := [] }

/-- C9 witness: at `metricsExample` the delete record cancel-observes both
pending create entries with the delete's duration and empties the cache of
all three keys. -/
theorem C9_witness :
    ({ driver := "d", operationName := DeleteNfsExportOperationName
       nfsExportType := "dynamic", status := "success", duration := (25 : Int) - 10 } :
        Observation) ∈
      (RecordMetrics metricsExample (NewOperationKey DeleteNfsExportOperationName "u9")
        (some "success") "d" 25).observations ∧
    ({ driver := "d", operationName := CreateNfsExportOperationName
       nfsExportType := "dynamic", status := "cancel", duration := (25 : Int) - 10 } :
        Observation) ∈
      (RecordMetrics metricsExample (NewOperationKey DeleteNfsExportOperationName "u9")
        (some "success") "d" 25).observations ∧
    cacheLookup (RecordMetrics metricsExample
        (NewOperationKey DeleteNfsExportOperationName "u9")
        (some "success") "d" 25).cache
      (NewOperationKey CreateNfsExportOperationName "u9") = none := by
  have h := C9_recordMetrics_delete_cancels metricsExample
    (NewOperationKey DeleteNfsExportOperationName "u9") (some "success") "d" 25
    { driver := "d", nfsExportType := "dynamic", startTime := 10 } rfl (by decide)
  refine ⟨?_, ?_, h.2.2.2.1⟩
  · simpa using h.1
  · exact h.2.1 { driver := "d", nfsExportType := "dynamic", startTime := 3 } (by decide)

end NfsExporter
